import Mathlib

/-!
# Verification of the multi-agent code-generation pipeline service

A shallow embedding of the `multi-agent` repository: the configuration
constants (`config/settings.py`), the agent pipeline definition
(`agents/*.py`), the request/response schemas (`models/api_models.py`),
the session-resolution and streaming helpers (`api/helpers.py`), and the
HTTP endpoint handlers (`api/endpoints.py`).

The third-party agent-orchestration framework (session service, memory
service, execution runner) is not part of this repository; its operations
are modelled per the spec's external-interface section: `get_session`
fails for an unknown key, `create_session` registers a key, the runner
produces a finite sequence of events (possibly failing partway), and the
memory service records sessions.  Handlers are parametrised by an
environment supplying the outcomes of these external calls, and every
handler additionally returns the trace of service effects it performed.
-/

namespace MultiAgent

/-! ## Configuration (`config/settings.py`, `agent.py`, `app.py`) -/

/-- From `config/settings.py`: `MODEL = "gemini-2.5-flash"` (reference model). -/
def MODEL : String := "gemini-2.5-flash"

/-- Model-provider binding, mirroring `google.adk.models.lite_llm.LiteLlm`. -/
structure LiteLlm where
  model : String
  api_base : String
  api_key : String
deriving DecidableEq

/-- From `config/settings.py`: the active model binding. -/
def MODEL_CONFIG : LiteLlm :=
  { model := "openai/llama3.2:1b"
    api_base := "http://192.168.237.77:11434/v1"
    api_key := "placeholder" }

/-- From `config/settings.py`: `APP_NAME = "code_pipeline_app"`. -/
def APP_NAME : String := "code_pipeline_app"

/-- From `agent.py`: `uvicorn.run(app, host="0.0.0.0", port=8001)`. -/
def SERVICE_PORT : Nat := 8001

/-- From `api/helpers.py`: `await asyncio.sleep(0.05)` after each emitted
chunk line; the pacing delay in seconds, as a rational. -/
def streamSleepSeconds : ℚ := 5 / 100

/-- From `app.py`: the URL the UI client posts its streaming request to. -/
def UI_STREAM_URL : String := "http://localhost:8001/ask_stream"

/-! ## Agent pipeline definition (`agents/*.py`) -/

/-- The slice of `google.adk.agents.llm_agent.LlmAgent` this repository
configures: a name and the state slot the agent's output is written to. -/
structure AgentDef where
  name : String
  output_key : String
deriving DecidableEq

/-- From `agents/code_writer.py`. -/
def code_writer_agent : AgentDef :=
  { name := "CodeWriterAgent", output_key := "generated_code" }

/-- From `agents/code_reviewer.py`. -/
def code_reviewer_agent : AgentDef :=
  { name := "CodeReviewerAgent", output_key := "review_comments" }

/-- From `agents/code_refactorer.py`. -/
def code_refactorer_agent : AgentDef :=
  { name := "CodeRefactorerAgent", output_key := "refactored_code" }

/-- The slice of `google.adk.agents.sequential_agent.SequentialAgent`
this repository configures: a name and the ordered sub-agent list. -/
structure SequentialAgentDef where
  name : String
  sub_agents : List AgentDef
deriving DecidableEq

/-- From `agents/pipeline.py`: the sub-agents run in the order provided:
Writer -> Reviewer -> Refactorer. -/
def code_pipeline_agent : SequentialAgentDef :=
  { name := "CodePipelineAgent"
    sub_agents := [code_writer_agent, code_reviewer_agent, code_refactorer_agent] }

/-! ## Event data model (the runner's events, per the spec's external
interface: author name, textual content, final/non-final marker) -/

/-- Mirrors `google.genai.types.Part`: the `text` field may be absent (`None`). -/
structure Part where
  text : Option String
deriving DecidableEq

/-- Mirrors `google.genai.types.Content`: a list of parts (an absent or empty
list are both falsy in the guards and are modelled as `[]`). -/
structure Content where
  parts : List Part
deriving DecidableEq

/-- A runner event: author, optional content, and the final marker
(`event.is_final_response()`). -/
structure Event where
  author : String
  content : Option Content
  is_final : Bool
deriving DecidableEq

/-- Reads `event.content.parts[0].text` — the first part's text, when the
event has content and a non-empty parts list. -/
def Event.firstText (e : Event) : Option String :=
  match e.content with
  | none => none
  | some c =>
    match c.parts with
    | [] => none
    | p :: _ => p.text

/-! ## Request/response schemas (`models/api_models.py`) -/

/-- Schema `QueryRequest`: `query` required, `user_id` defaults to
`"default_user"`, `session_id` optional. -/
structure QueryRequest where
  query : String
  user_id : String := "default_user"
  session_id : Option String := none
deriving DecidableEq

/-- Schema `StandardResponse`: ordered final responses plus the session id. -/
structure StandardResponse where
  responses : List String
  session_id : String
deriving DecidableEq

/-- Schema `ErrorResponse`: a single textual `error` field. -/
structure ErrorResponse where
  error : String
deriving DecidableEq

/-- Schema `StreamChunk`: one streamed line's payload. -/
structure StreamChunk where
  agent : String
  content : String
  is_final : Bool
  session_id : String
deriving DecidableEq

/-! ## External services (modelled per spec section 6) -/

/-- A session key: `(app_name, user_id, session_id)`. -/
abbrev SKey := String × String × String

/-- A session, as far as this repository observes it: its identifier. -/
structure Session where
  id : String
deriving DecidableEq

/-- One call into the shared services, for effect traces. -/
inductive Effect
  | getSession (key : SKey)
  | createSession (key : SKey)
  | runPipeline (user_id session_id : String)
  | addMemory (session_id : String)
deriving DecidableEq

/-- Session service `get_session`, keyed by `(app_name, user_id,
session_id)`; per the spec it is a get-by-id that fails ("session not
found") for an unknown key. -/
def get_session (store : List SKey) (key : SKey) : Except String Session :=
  if key ∈ store then .ok ⟨key.2.2⟩ else .error "Session not found"

/-- Session service `create_session`: registers the key in the store. -/
def create_session (store : List SKey) (key : SKey) : List SKey :=
  key :: store

/-! ## Session resolution (`api/helpers.py`, `get_or_create_session`) -/

/-- The creation fallback of `get_or_create_session`:
`new_session_id = session_id or str(uuid.uuid4())`, then
`create_session`, then a final `get_session` of the new key. -/
def createThenGet (store : List SKey) (user_id new_session_id : String)
    (fx : List Effect) : Except String Session × List SKey × List Effect :=
  let key : SKey := (APP_NAME, user_id, new_session_id)
  let store1 := create_session store key
  (get_session store1 key, store1, fx ++ [.createSession key, .getSession key])

/-- From `api/helpers.py`, `get_or_create_session`: when a truthy `session_id`
is supplied, try `get_session` and on any failure fall back (bare
`except: pass`) to creating a session under that id; a falsy
(`None` or empty) `session_id` goes straight to creation under a fresh
generated id (`session_id or str(uuid.uuid4())`). -/
def get_or_create_session (store : List SKey) (user_id : String)
    (session_id : Option String) (freshId : String) :
    Except String Session × List SKey × List Effect :=
  match session_id with
  | some sid =>
    if sid = "" then
      createThenGet store user_id freshId []
    else
      match get_session store (APP_NAME, user_id, sid) with
      | .ok s => (.ok s, store, [.getSession (APP_NAME, user_id, sid)])
      | .error _ =>
        createThenGet store user_id sid [.getSession (APP_NAME, user_id, sid)]
  | none => createThenGet store user_id freshId []

/-! ## The synchronous handler (`api/endpoints.py`, `ask_agent`) -/

/-- The guard of the collection loop in `ask_agent`:
`event.is_final_response() and event.content and event.content.parts`
(Python truthiness: content present and parts list non-empty). -/
def askGuard (e : Event) : Bool :=
  e.is_final &&
    (match e.content with
     | none => false
     | some c => !c.parts.isEmpty)

/-- The `responses` list built by `ask_agent`'s loop: for each event
passing the guard, `event.content.parts[0].text` is appended (which may
be `None`, since this path does not test the text). -/
def collectAsk (events : List Event) : List (Option String) :=
  (events.filter askGuard).map Event.firstText

/-- Pydantic validation of `StandardResponse.responses : List[str]`:
every element must be a string; a `None` element raises. -/
def validateStrList : List (Option String) → Except String (List String)
  | [] => .ok []
  | none :: _ => .error "validation error: str type expected in responses"
  | some s :: rest =>
    match validateStrList rest with
    | .ok l => .ok (s :: l)
    | .error e => .error e

/-- The texts of the events marked as final responses, in emission
order — the spec's description of `StandardResponse.responses` (an
event marked final contributes its first part's text when it has one). -/
def finalResponseTexts (events : List Event) : List String :=
  events.filterMap (fun e => if e.is_final then e.firstText else none)

/-- The outcome of each external call the synchronous handler makes,
beyond the session store itself: the runner's event iteration either
yields a finite event list or raises, and the memory-service write
either succeeds or raises. -/
structure AskEnv where
  store : List SKey
  freshId : String
  runResult : Except String (List Event)
  memResult : Except String Unit

/-- The body of the HTTP response of `/ask`. -/
inductive AskBody
  | ok (r : StandardResponse)
  | err (e : ErrorResponse)
  | invalid (detail : String)
deriving DecidableEq

/-- An HTTP response: transport status code and body. -/
structure HttpResponse where
  status : Nat
  body : AskBody
deriving DecidableEq

/-- From `api/endpoints.py`, `ask_agent`: resolve/create the session, run the
pipeline, collect the final-response texts, re-fetch the session, push
it to the memory service, and return a `StandardResponse` (with the
`["No response received."]` fallback for an empty list); any exception
along the way is caught and returned as an `ErrorResponse` body with a
success-shaped transport status. -/
def ask_agent (req : QueryRequest) (env : AskEnv) : HttpResponse × List Effect :=
  match get_or_create_session env.store req.user_id req.session_id env.freshId with
  | (.error e, _, fx) => (⟨200, .err ⟨e⟩⟩, fx)
  | (.ok session, store1, fx) =>
    let sid := session.id
    let fx1 := fx ++ [.runPipeline req.user_id sid]
    match env.runResult with
    | .error e => (⟨200, .err ⟨e⟩⟩, fx1)
    | .ok events =>
      let collected := collectAsk events
      match get_session store1 (APP_NAME, req.user_id, sid) with
      | .error e => (⟨200, .err ⟨e⟩⟩, fx1 ++ [.getSession (APP_NAME, req.user_id, sid)])
      | .ok _finalSession =>
        let fx2 := fx1 ++ [.getSession (APP_NAME, req.user_id, sid), .addMemory sid]
        match env.memResult with
        | .error e => (⟨200, .err ⟨e⟩⟩, fx2)
        | .ok _ =>
          match validateStrList
              (if collected.isEmpty then [some "No response received."] else collected) with
          | .error e => (⟨200, .err ⟨e⟩⟩, fx2)
          | .ok rs => (⟨200, .ok ⟨rs, sid⟩⟩, fx2)

/-! ## The streaming generator (`api/helpers.py`, `stream_agent_responses`) -/

/-- A JSON value, as far as the emitted chunk lines need. -/
inductive JVal
  | str (s : String)
  | bool (b : Bool)
deriving DecidableEq

/-- A JSON object: an ordered key/value list (what `json.dumps` of a
dict serialises and a JSON parse of the line recovers). -/
abbrev JObj := List (String × JVal)

/-- One emitted stream line: either a chunk payload or an error payload. -/
inductive Line
  | chunk (c : StreamChunk)
  | err (e : String)
deriving DecidableEq

/-- The JSON object a stream line serialises to. -/
def lineJson : Line → JObj
  | .chunk c =>
    [("agent", .str c.agent), ("content", .str c.content),
     ("is_final", .bool c.is_final), ("session_id", .str c.session_id)]
  | .err e => [("error", .str e)]

/-- The key list of a JSON object. -/
def jsonKeys (o : JObj) : List String := o.map Prod.fst

/-- The per-event emission step of the streaming loop: the guard
`event.content and event.content.parts and event.content.parts[0].text`
(Python truthiness: content present, parts non-empty, first part's text
present and non-empty), and on success the chunk
`{agent, content, is_final, session_id}` built from the event. -/
def emitChunk (sid : String) (e : Event) : Option StreamChunk :=
  match e.content with
  | none => none
  | some c =>
    match c.parts with
    | [] => none
    | p :: _ =>
      match p.text with
      | none => none
      | some t =>
        if t = "" then none
        else some ⟨e.author, t, e.is_final, sid⟩

/-- The external-call outcomes the streaming generator observes: the
events the runner's asynchronous stream delivers, an optional exception
raised by that stream after those events (`none` when the stream
completes), and the memory-service write outcome. -/
structure StreamEnv where
  store : List SKey
  freshId : String
  events : List Event
  streamFail : Option String
  memResult : Except String Unit

/-- From `api/helpers.py`, `stream_agent_responses`: resolve/create the
session, iterate the runner's event stream emitting one JSON chunk line
per event with non-empty first-part text, then re-fetch the session and
push it to the memory service; any exception anywhere in the body is
caught and a single `{error}` line is emitted, ending the sequence. -/
def stream_agent_responses (user_id : String) (session_id : Option String)
    (_query : String) (env : StreamEnv) : List Line × List Effect :=
  match get_or_create_session env.store user_id session_id env.freshId with
  | (.error e, _, fx) => ([.err e], fx)
  | (.ok session, store1, fx) =>
    let sid := session.id
    let chunks := env.events.filterMap (fun e => (emitChunk sid e).map Line.chunk)
    let fx1 := fx ++ [.runPipeline user_id sid]
    match env.streamFail with
    | some e => (chunks ++ [.err e], fx1)
    | none =>
      match get_session store1 (APP_NAME, user_id, sid) with
      | .error e => (chunks ++ [.err e], fx1 ++ [.getSession (APP_NAME, user_id, sid)])
      | .ok _finalSession =>
        let fx2 := fx1 ++ [.getSession (APP_NAME, user_id, sid), .addMemory sid]
        match env.memResult with
        | .error e => (chunks ++ [.err e], fx2)
        | .ok _ => (chunks, fx2)

/-! ## Route-level request validation (`models/api_models.py` applied by
the framework before either handler body runs) -/

/-- The state of one field of an inbound JSON body. -/
inductive BodyField
  | absent
  | null
  | str (s : String)
deriving DecidableEq

/-- An inbound request body for `/ask` or `/ask_stream`. -/
structure RawBody where
  query : BodyField := .absent
  user_id : BodyField := .absent
  session_id : BodyField := .absent
deriving DecidableEq

/-- Pydantic validation of `QueryRequest`: `query` is a required
string; `user_id` is a string defaulting to `"default_user"`;
`session_id` is an optional string defaulting to `None`. -/
def parseQueryRequest (b : RawBody) : Except String QueryRequest :=
  match b.query with
  | .absent => .error "query: field required"
  | .null => .error "query: string required"
  | .str q =>
    match b.user_id with
    | .null => .error "user_id: string required"
    | .absent =>
      match b.session_id with
      | .absent => .ok ⟨q, "default_user", none⟩
      | .null => .ok ⟨q, "default_user", none⟩
      | .str s => .ok ⟨q, "default_user", some s⟩
    | .str u =>
      match b.session_id with
      | .absent => .ok ⟨q, u, none⟩
      | .null => .ok ⟨q, u, none⟩
      | .str s => .ok ⟨q, u, some s⟩

/-- The `/ask` route: validation first (HTTP 422 on failure, before any
agent logic and with no service effects), then the handler body. -/
def handle_ask (b : RawBody) (env : AskEnv) : HttpResponse × List Effect :=
  match parseQueryRequest b with
  | .error d => (⟨422, .invalid d⟩, [])
  | .ok req => ask_agent req env

/-- The `/ask_stream` route's response: a 422 validation failure, or a
success-status streaming body. -/
inductive StreamResponse
  | invalid (status : Nat) (detail : String)
  | streaming (status : Nat) (lines : List Line)
deriving DecidableEq

/-- The `/ask_stream` route: validation first (HTTP 422 on failure,
before any agent logic and with no service effects), then the streaming
body produced by the generator. -/
def handle_ask_stream (b : RawBody) (env : StreamEnv) : StreamResponse × List Effect :=
  match parseQueryRequest b with
  | .error d => (.invalid 422 d, [])
  | .ok req =>
    let (lines, fx) := stream_agent_responses req.user_id req.session_id req.query env
    (.streaming 200 lines, fx)

/-! ## Trace observations -/

/-- The session ids written to the memory service in a trace. -/
def memWrites (t : List Effect) : List String :=
  t.filterMap (fun f =>
    match f with
    | .addMemory s => some s
    | _ => none)

/-- The session ids created or mutated in a trace (a `createSession`
creates one; a `runPipeline` mutates the session it runs against). -/
def touchedSessions (t : List Effect) : List String :=
  t.filterMap (fun f =>
    match f with
    | .createSession k => some k.2.2
    | .runPipeline _ s => some s
    | _ => none)

/-- The chunk payloads among the emitted lines. -/
def chunkLines (out : List Line) : List StreamChunk :=
  out.filterMap (fun l =>
    match l with
    | .chunk c => some c
    | .err _ => none)

/-- Whether a line is an error line. -/
def Line.isErr : Line → Bool
  | .chunk _ => false
  | .err _ => true

/-! ## Basic lemmas -/

/-- The creation fallback registers the key and then successfully
fetches the just-created session. -/
theorem createThenGet_eq (store : List SKey) (u nid : String) (fx : List Effect) :
    createThenGet store u nid fx =
      (.ok ⟨nid⟩, (APP_NAME, u, nid) :: store,
        fx ++ [.createSession (APP_NAME, u, nid), .getSession (APP_NAME, u, nid)]) := by
  simp [createThenGet, create_session, get_session]

/-- Session resolution never fails, and the returned session's key is
registered in the resulting store. -/
theorem get_or_create_session_ok (store : List SKey) (u : String)
    (session_id : Option String) (freshId : String) :
    ∃ s store' fx,
      get_or_create_session store u session_id freshId = (.ok s, store', fx) ∧
        (APP_NAME, u, s.id) ∈ store' ∧
        memWrites fx = [] ∧
        (∀ x ∈ touchedSessions fx, x = s.id) := by
  rcases session_id with _ | sid
  · exact ⟨⟨freshId⟩, (APP_NAME, u, freshId) :: store,
      [.createSession (APP_NAME, u, freshId), .getSession (APP_NAME, u, freshId)],
      by simp [get_or_create_session, createThenGet_eq], by simp,
      by simp [memWrites], by simp [touchedSessions]⟩
  · by_cases h0 : sid = ""
    · exact ⟨⟨freshId⟩, (APP_NAME, u, freshId) :: store,
        [.createSession (APP_NAME, u, freshId), .getSession (APP_NAME, u, freshId)],
        by simp [get_or_create_session, h0, createThenGet_eq], by simp,
        by simp [memWrites], by simp [touchedSessions]⟩
    · by_cases hm : (APP_NAME, u, sid) ∈ store
      · exact ⟨⟨sid⟩, store, [.getSession (APP_NAME, u, sid)],
          by simp [get_or_create_session, h0, get_session, hm], hm,
          by simp [memWrites], by simp [touchedSessions]⟩
      · exact ⟨⟨sid⟩, (APP_NAME, u, sid) :: store,
          [.getSession (APP_NAME, u, sid), .createSession (APP_NAME, u, sid),
           .getSession (APP_NAME, u, sid)],
          by simp [get_or_create_session, h0, get_session, hm, createThenGet_eq],
          by simp, by simp [memWrites], by simp [touchedSessions]⟩

/-! ## Claim theorems -/

/-- C8: the process-wide configuration constants are exactly the
application name `"code_pipeline_app"`, reference model
`"gemini-2.5-flash"`, active model `"openai/llama3.2:1b"` at base URL
`http://192.168.237.77:11434/v1` with credential `"placeholder"`,
listening port 8001, a 50-millisecond streaming pacing delay, and the
UI client targeting API base `http://localhost:8001`. -/
theorem config_constants_exact :
    APP_NAME = "code_pipeline_app" ∧
    MODEL = "gemini-2.5-flash" ∧
    MODEL_CONFIG = { model := "openai/llama3.2:1b",
                     api_base := "http://192.168.237.77:11434/v1",
                     api_key := "placeholder" } ∧
    SERVICE_PORT = 8001 ∧
    streamSleepSeconds * 1000 = 50 ∧
    UI_STREAM_URL = "http://localhost:8001" ++ "/ask_stream" :=
  ⟨rfl, rfl, rfl, rfl, by norm_num [streamSleepSeconds], rfl⟩

/-- C6: an inbound body whose required `query` field is missing (or is
not a string) is rejected with HTTP 422 semantics on both `/ask` and
`/ask_stream`, before any agent logic, with no session creation and no
memory-service write (an empty effect trace). -/
theorem missing_query_rejected (b : RawBody) (envA : AskEnv) (envS : StreamEnv)
    (h : b.query = .absent ∨ b.query = .null) :
    (∃ d, handle_ask b envA = (⟨422, .invalid d⟩, [])) ∧
    (∃ d, handle_ask_stream b envS = (.invalid 422 d, [])) := by
  rcases h with h | h
  · exact ⟨⟨"query: field required", by simp [handle_ask, parseQueryRequest, h]⟩,
      ⟨"query: field required", by simp [handle_ask_stream, parseQueryRequest, h]⟩⟩
  · exact ⟨⟨"query: string required", by simp [handle_ask, parseQueryRequest, h]⟩,
      ⟨"query: string required", by simp [handle_ask_stream, parseQueryRequest, h]⟩⟩

/-- C6 witness: the empty body `{}` is rejected on both routes. -/
theorem missing_query_rejected_witness :
    (∃ d, handle_ask {} ⟨[], "fresh", .ok [], .ok ()⟩ = (⟨422, .invalid d⟩, [])) ∧
    (∃ d, handle_ask_stream {} ⟨[], "fresh", [], none, .ok ()⟩ =
      (.invalid 422 d, [])) :=
  missing_query_rejected {} ⟨[], "fresh", .ok [], .ok ()⟩
    ⟨[], "fresh", [], none, .ok ()⟩ (Or.inl rfl)

/-- C2 counterexample: the empty string is a supplied `session_id` that
names no existing session (the store is empty), yet resolution does not
create a session with that exact identifier: it returns a session under
the freshly generated identifier instead (`session_id or uuid4()` treats
`""` as absent). -/
theorem unknown_session_id_counterexample :
    (get_or_create_session [] "u" (some "") "generated-uuid").1 =
      .ok ⟨"generated-uuid"⟩ ∧
    "generated-uuid" ≠ "" := by
  constructor
  · simp [get_or_create_session, createThenGet_eq]
  · decide

/-- C2 (amended): for every supplied **non-empty** `session_id` that
names no existing session, resolution does not fail: it creates a
session with that exact identifier and returns it; consequently `/ask`
with an unknown non-empty `session_id` answers under that identifier. -/
theorem unknown_session_id_creates (store : List SKey) (u sid fresh q : String)
    (hne : sid ≠ "") (hmem : (APP_NAME, u, sid) ∉ store) :
    get_or_create_session store u (some sid) fresh =
      (.ok ⟨sid⟩, (APP_NAME, u, sid) :: store,
        [.getSession (APP_NAME, u, sid), .createSession (APP_NAME, u, sid),
         .getSession (APP_NAME, u, sid)]) ∧
    (ask_agent ⟨q, u, some sid⟩ ⟨store, fresh, .ok [], .ok ()⟩).1 =
      ⟨200, .ok ⟨["No response received."], sid⟩⟩ := by
  have hres : get_or_create_session store u (some sid) fresh =
      (.ok ⟨sid⟩, (APP_NAME, u, sid) :: store,
        [.getSession (APP_NAME, u, sid), .createSession (APP_NAME, u, sid),
         .getSession (APP_NAME, u, sid)]) := by
    simp [get_or_create_session, hne, get_session, hmem, createThenGet_eq]
  refine ⟨hres, ?_⟩
  simp [ask_agent, hres, get_session, collectAsk, validateStrList]

/-- C2 witness: an unknown non-empty `session_id` in an empty store. -/
theorem unknown_session_id_creates_witness :
    get_or_create_session [] "u" (some "s1") "fresh" =
      (.ok ⟨"s1"⟩, [(APP_NAME, "u", "s1")],
        [.getSession (APP_NAME, "u", "s1"), .createSession (APP_NAME, "u", "s1"),
         .getSession (APP_NAME, "u", "s1")]) ∧
    (ask_agent ⟨"q", "u", some "s1"⟩ ⟨[], "fresh", .ok [], .ok ()⟩).1 =
      ⟨200, .ok ⟨["No response received."], "s1"⟩⟩ :=
  unknown_session_id_creates [] "u" "s1" "fresh" "q" (by decide) (by decide)

/-- C1: any exception raised while processing `/ask` (here: during the
pipeline run or during the memory-service write; in this model session
resolution and the re-fetch cannot fail) is caught and returned as an
`ErrorResponse` body holding exactly the exception's description, with
a success-shaped transport status. -/
theorem ask_exception_in_body (req : QueryRequest) (env : AskEnv) (e : String)
    (h : env.runResult = .error e ∨
      (∃ evs, env.runResult = .ok evs ∧ env.memResult = .error e)) :
    (ask_agent req env).1 = ⟨200, .err ⟨e⟩⟩ := by
  obtain ⟨s, store', fx, hres, hmem, -, -⟩ :=
    get_or_create_session_ok env.store req.user_id req.session_id env.freshId
  rcases h with h | ⟨evs, hrun, hmemr⟩
  · simp [ask_agent, hres, h]
  · simp [ask_agent, hres, hrun, hmemr, get_session, hmem]

/-- C1 witness: a failing pipeline run surfaces as a body-level error. -/
theorem ask_exception_in_body_witness :
    (ask_agent ⟨"q", "u", none⟩ ⟨[], "fresh", .error "boom", .ok ()⟩).1 =
      ⟨200, .err ⟨"boom"⟩⟩ :=
  ask_exception_in_body ⟨"q", "u", none⟩ ⟨[], "fresh", .error "boom", .ok ()⟩
    "boom" (Or.inl rfl)

/-! ## Lemmas about the collected responses -/

theorem collectAsk_nil : collectAsk [] = [] := rfl

theorem collectAsk_cons (e : Event) (t : List Event) :
    collectAsk (e :: t) =
      if askGuard e then e.firstText :: collectAsk t else collectAsk t := by
  by_cases h : askGuard e <;> simp [collectAsk, List.filter_cons, h]

theorem finalResponseTexts_cons (e : Event) (t : List Event) :
    finalResponseTexts (e :: t) =
      match (if e.is_final then e.firstText else none) with
      | some s => s :: finalResponseTexts t
      | none => finalResponseTexts t := by
  simp only [finalResponseTexts, List.filterMap_cons]
  cases (if e.is_final then e.firstText else none) <;> rfl

/-- A final-marked event rejected by the collection guard has no
first-part text at all. -/
theorem askGuard_false_firstText (e : Event) (hg : askGuard e = false)
    (hf : e.is_final = true) : e.firstText = none := by
  cases hc : e.content with
  | none => simp [Event.firstText, hc]
  | some c =>
    cases hp : c.parts with
    | nil => simp [Event.firstText, hc, hp]
    | cons p rest =>
      exfalso
      simp [askGuard, hc, hf, hp] at hg

/-- Pydantic validation preserves the element count. -/
theorem validateStrList_length (l : List (Option String)) (rs : List String)
    (h : validateStrList l = .ok rs) : rs.length = l.length := by
  induction l generalizing rs with
  | nil => simp [validateStrList] at h; simp [← h]
  | cons a t ih =>
    cases a with
    | none => simp [validateStrList] at h
    | some s =>
      cases ht : validateStrList t with
      | error e => simp [validateStrList, ht] at h
      | ok l' =>
        simp [validateStrList, ht] at h
        simp [← h, ih l' ht]

/-- When validation of the collected list succeeds, the collected list
is exactly the texts of the final-marked events, in order. -/
theorem validate_collect_eq (evs : List Event) (rs : List String)
    (h : validateStrList (collectAsk evs) = .ok rs) :
    rs = finalResponseTexts evs := by
  induction evs generalizing rs with
  | nil =>
    simp [collectAsk_nil, validateStrList] at h
    simp [← h, finalResponseTexts]
  | cons e t ih =>
    rw [collectAsk_cons] at h
    by_cases hg : askGuard e
    · have hf : e.is_final = true := by
        have := hg
        simp [askGuard, Bool.and_eq_true] at this
        exact this.1
      rw [if_pos hg] at h
      cases hft : e.firstText with
      | none => rw [hft] at h; simp [validateStrList] at h
      | some s =>
        rw [hft] at h
        cases ht : validateStrList (collectAsk t) with
        | error e' => simp [validateStrList, ht] at h
        | ok l' =>
          simp [validateStrList, ht] at h
          rw [finalResponseTexts_cons, hf, if_pos rfl, hft]
          simp [← h, ih l' ht]
    · have hg' : askGuard e = false := by simpa using hg
      rw [if_neg hg] at h
      have hrest := ih rs h
      rw [finalResponseTexts_cons]
      cases hf : e.is_final with
      | false => simpa using hrest
      | true => simp [askGuard_false_firstText e hg' hf]; exact hrest

/-- C4: on every completed `/ask` turn (one that returns a
`StandardResponse`), `responses` is the ordered list of the texts of the
events marked as final responses; if no final event carried a text, it
is exactly `["No response received."]`; it is never empty. -/
theorem ask_responses_are_final_texts (req : QueryRequest) (env : AskEnv)
    (evs : List Event) (resp : StandardResponse)
    (hrun : env.runResult = .ok evs)
    (hok : (ask_agent req env).1 = ⟨200, .ok resp⟩) :
    resp.responses =
      (if finalResponseTexts evs = [] then ["No response received."]
       else finalResponseTexts evs) ∧
    resp.responses ≠ [] := by
  obtain ⟨s, store', fx, hres, hmem, -, -⟩ :=
    get_or_create_session_ok env.store req.user_id req.session_id env.freshId
  cases hmemr : env.memResult with
  | error e => simp [ask_agent, hres, hrun, get_session, hmem, hmemr] at hok
  | ok uu =>
    by_cases hce : (collectAsk evs).isEmpty
    · have hnil : collectAsk evs = [] := by simpa using hce
      have hfin : finalResponseTexts evs = [] :=
        (validate_collect_eq evs [] (by rw [hnil]; rfl)).symm
      simp [ask_agent, hres, hrun, get_session, hmem, hmemr, hce,
        validateStrList] at hok
      rw [← hok]
      simp [hfin]
    · cases hval : validateStrList (collectAsk evs) with
      | error e =>
        simp [ask_agent, hres, hrun, get_session, hmem, hmemr, hce, hval] at hok
      | ok rs =>
        simp [ask_agent, hres, hrun, get_session, hmem, hmemr, hce, hval] at hok
        have hrs := validate_collect_eq evs rs hval
        have hlen : rs.length = (collectAsk evs).length :=
          validateStrList_length _ _ hval
        have hne : finalResponseTexts evs ≠ [] := by
          rw [← hrs]
          intro hnil
          rw [hnil] at hlen
          have : collectAsk evs = [] := by
            cases hc : collectAsk evs with
            | nil => rfl
            | cons a t => rw [hc] at hlen; simp at hlen
          simp [this] at hce
        rw [if_neg hne, ← hrs, ← hok]
        refine ⟨rfl, ?_⟩
        intro hnil
        rw [show (StandardResponse.mk rs s.id).responses = rs from rfl] at hnil
        rw [hnil] at hlen
        have : collectAsk evs = [] := by
          cases hc : collectAsk evs with
          | nil => rfl
          | cons a t => rw [hc] at hlen; simp at hlen
        simp [this] at hce

/-- C4 witness: a turn whose runner emits one final event with text. -/
theorem ask_responses_are_final_texts_witness :
    (⟨["the code"], "fresh"⟩ : StandardResponse).responses =
      (if finalResponseTexts [⟨"CodeRefactorerAgent", some ⟨[⟨some "the code"⟩]⟩, true⟩] = []
       then ["No response received."]
       else finalResponseTexts [⟨"CodeRefactorerAgent", some ⟨[⟨some "the code"⟩]⟩, true⟩]) ∧
    (⟨["the code"], "fresh"⟩ : StandardResponse).responses ≠ [] :=
  ask_responses_are_final_texts ⟨"q", "u", none⟩
    ⟨[], "fresh", .ok [⟨"CodeRefactorerAgent", some ⟨[⟨some "the code"⟩]⟩, true⟩], .ok ()⟩
    [⟨"CodeRefactorerAgent", some ⟨[⟨some "the code"⟩]⟩, true⟩]
    ⟨["the code"], "fresh"⟩ rfl (by decide)

/-! ## Lemmas about the streaming generator -/

/-- Full characterisation of the generator's output and effect trace in
terms of the resolved session: the chunk lines for the delivered events,
followed by a single error line when the event stream raised or the
memory write raised; the re-fetch and memory write happen only when the
event stream completed. -/
theorem stream_spec (u : String) (sid? : Option String) (q : String)
    (env : StreamEnv) :
    ∃ s store' fx,
      get_or_create_session env.store u sid? env.freshId = (.ok s, store', fx) ∧
      (APP_NAME, u, s.id) ∈ store' ∧
      memWrites fx = [] ∧
      (∀ x ∈ touchedSessions fx, x = s.id) ∧
      stream_agent_responses u sid? q env =
        (match env.streamFail with
         | some e =>
           (env.events.filterMap (fun ev => (emitChunk s.id ev).map Line.chunk) ++ [.err e],
            fx ++ [.runPipeline u s.id])
         | none =>
           match env.memResult with
           | .error e =>
             (env.events.filterMap (fun ev => (emitChunk s.id ev).map Line.chunk) ++ [.err e],
              fx ++ [.runPipeline u s.id, .getSession (APP_NAME, u, s.id), .addMemory s.id])
           | .ok _ =>
             (env.events.filterMap (fun ev => (emitChunk s.id ev).map Line.chunk),
              fx ++ [.runPipeline u s.id, .getSession (APP_NAME, u, s.id), .addMemory s.id])) := by
  obtain ⟨s, store', fx, hres, hmem, hmw, htc⟩ :=
    get_or_create_session_ok env.store u sid? env.freshId
  refine ⟨s, store', fx, hres, hmem, hmw, htc, ?_⟩
  cases hsf : env.streamFail with
  | some e => simp [stream_agent_responses, hres, hsf]
  | none =>
    cases hmr : env.memResult with
    | error e => simp [stream_agent_responses, hres, hsf, get_session, hmem, hmr]
    | ok uu => simp [stream_agent_responses, hres, hsf, get_session, hmem, hmr]

/-- Every line the chunk part of the stream carries is a chunk line. -/
theorem mem_chunkPart_not_err (sid : String) (evs : List Event) (l : Line)
    (h : l ∈ evs.filterMap (fun ev => (emitChunk sid ev).map Line.chunk)) :
    l.isErr = false := by
  rw [List.mem_filterMap] at h
  obtain ⟨ev, _, hev⟩ := h
  cases hc : emitChunk sid ev with
  | none => rw [hc] at hev; simp at hev
  | some c => rw [hc] at hev; simp at hev; simp [← hev, Line.isErr]

/-- Extracting the chunk payloads undoes the `Line.chunk` wrapping. -/
theorem chunkLines_of_chunks (sid : String) (evs : List Event) :
    chunkLines (evs.filterMap (fun ev => (emitChunk sid ev).map Line.chunk)) =
      evs.filterMap (emitChunk sid) := by
  induction evs with
  | nil => rfl
  | cons e t ih =>
    cases h : emitChunk sid e <;>
      simp [List.filterMap_cons, h, chunkLines, ih] <;>
      simpa [chunkLines] using ih

/-- Appending an error line does not change the chunk payloads. -/
theorem chunkLines_append_err (out : List Line) (e : String) :
    chunkLines (out ++ [.err e]) = chunkLines out := by
  simp [chunkLines, List.filterMap_append]

/-- C5: every emitted stream line serialises to a JSON object whose keys
are exactly `{agent, content, is_final, session_id}` or exactly
`{error}` — never a mix and never empty; and on any failure the
generator emits a single final `{error}` line carrying the failure's
description after the chunk lines, then ends the sequence. -/
theorem stream_line_shape (u : String) (sid? : Option String) (q : String)
    (env : StreamEnv) :
    (∀ l ∈ (stream_agent_responses u sid? q env).1,
        jsonKeys (lineJson l) = ["agent", "content", "is_final", "session_id"] ∨
        jsonKeys (lineJson l) = ["error"]) ∧
    (∀ e, (env.streamFail = some e ∨
           (env.streamFail = none ∧ env.memResult = .error e)) →
        ∃ pre, (stream_agent_responses u sid? q env).1 = pre ++ [.err e] ∧
          ∀ l ∈ pre, l.isErr = false) := by
  obtain ⟨s, store', fx, hres, hmem, hmw, htc, hout⟩ := stream_spec u sid? q env
  constructor
  · intro l _
    cases l with
    | chunk c => left; simp [lineJson, jsonKeys]
    | err e => right; simp [lineJson, jsonKeys]
  · intro e he
    rcases he with he | ⟨hsf, hmr⟩
    · refine ⟨env.events.filterMap (fun ev => (emitChunk s.id ev).map Line.chunk), ?_, ?_⟩
      · rw [hout, he]
      · exact fun l hl => mem_chunkPart_not_err s.id env.events l hl
    · refine ⟨env.events.filterMap (fun ev => (emitChunk s.id ev).map Line.chunk), ?_, ?_⟩
      · rw [hout, hsf, hmr]
      · exact fun l hl => mem_chunkPart_not_err s.id env.events l hl

/-- C5 witness: a failing memory write yields the chunk lines followed
by one final error line. -/
theorem stream_line_shape_witness :
    ∃ pre, (stream_agent_responses "u" none "q"
        ⟨[], "fresh", [⟨"CodeWriterAgent", some ⟨[⟨some "hi"⟩]⟩, true⟩], none,
         .error "mem down"⟩).1 = pre ++ [.err "mem down"] ∧
      ∀ l ∈ pre, l.isErr = false :=
  (stream_line_shape "u" none "q"
    ⟨[], "fresh", [⟨"CodeWriterAgent", some ⟨[⟨some "hi"⟩]⟩, true⟩], none,
     .error "mem down"⟩).2 "mem down" (Or.inr ⟨rfl, rfl⟩)

/-- The chunk a guard-passing event emits carries the event's author,
final marker, and first part's text. -/
theorem emitChunk_some_fields (sid : String) (e : Event) (c : StreamChunk)
    (h : emitChunk sid e = some c) :
    c.agent = e.author ∧ c.is_final = e.is_final ∧ c.session_id = sid ∧
    ∃ p ps, e.content = some ⟨p :: ps⟩ ∧ p.text = some c.content ∧ c.content ≠ "" := by
  cases hc : e.content with
  | none => simp [emitChunk, hc] at h
  | some cn =>
    cases hp : cn.parts with
    | nil => simp [emitChunk, hc, hp] at h
    | cons p ps =>
      cases ht : p.text with
      | none => simp [emitChunk, hc, hp, ht] at h
      | some t =>
        by_cases h0 : t = ""
        · simp [emitChunk, hc, hp, ht, h0] at h
        · simp [emitChunk, hc, hp, ht, h0] at h
          refine ⟨by simp [← h], by simp [← h], by simp [← h], p, ps, ?_, ?_, ?_⟩
          · obtain ⟨parts⟩ := cn
            rw [show parts = p :: ps from hp]
          · simp [← h, ht]
          · simp [← h, h0]

/-- C9: a chunk line is emitted exactly for the events whose content has
a non-empty parts list whose first part carries non-empty text, and the
chunk's content is exactly that first part's text (text in later parts
is never consulted). -/
theorem stream_chunk_iff_first_text (u : String) (sid? : Option String)
    (q : String) (env : StreamEnv) :
    (∃ sid, chunkLines (stream_agent_responses u sid? q env).1 =
        env.events.filterMap (emitChunk sid)) ∧
    (∀ sid e c, emitChunk sid e = some c →
        ∃ p ps, e.content = some ⟨p :: ps⟩ ∧ p.text = some c.content ∧
          c.content ≠ "") ∧
    (∀ sid e, emitChunk sid e = none →
        ¬∃ p ps t, e.content = some ⟨p :: ps⟩ ∧ p.text = some t ∧ t ≠ "") := by
  obtain ⟨s, store', fx, hres, hmem, hmw, htc, hout⟩ := stream_spec u sid? q env
  refine ⟨⟨s.id, ?_⟩, ?_, ?_⟩
  · rw [hout]
    cases hsf : env.streamFail with
    | some e => simp [chunkLines_append_err, chunkLines_of_chunks]
    | none =>
      cases hmr : env.memResult with
      | error e => simp [chunkLines_append_err, chunkLines_of_chunks]
      | ok uu => simp [chunkLines_of_chunks]
  · intro sid e c h
    exact (emitChunk_some_fields sid e c h).2.2.2
  · rintro sid e h ⟨p, ps, t, hc, ht, hne⟩
    simp [emitChunk, hc, ht, hne] at h

/-- C9 witness: an event whose text sits only in the second part is not
emitted. -/
theorem stream_chunk_iff_first_text_witness :
    ¬∃ p ps t,
      (Event.mk "CodeWriterAgent" (some ⟨[⟨none⟩, ⟨some "late"⟩]⟩) true).content =
        some ⟨p :: ps⟩ ∧ p.text = some t ∧ t ≠ "" :=
  (stream_chunk_iff_first_text "u" none "q"
      ⟨[], "fresh", [], none, .ok ()⟩).2.2 "fresh"
    (Event.mk "CodeWriterAgent" (some ⟨[⟨none⟩, ⟨some "late"⟩]⟩) true) rfl

/-- C10: an exception raised by the event stream mid-iteration — also
after chunk lines have been emitted — yields exactly one final error
line, and both the session re-fetch and the memory-service write are
skipped: the trace records no memory write and ends at the pipeline
run. -/
theorem stream_failure_skips_memory (u : String) (sid? : Option String)
    (q : String) (env : StreamEnv) (e : String)
    (h : env.streamFail = some e) :
    (∃ pre, (stream_agent_responses u sid? q env).1 = pre ++ [.err e] ∧
        ∀ l ∈ pre, l.isErr = false) ∧
    ((stream_agent_responses u sid? q env).1.filter Line.isErr).length = 1 ∧
    memWrites (stream_agent_responses u sid? q env).2 = [] ∧
    (∃ sid, ((stream_agent_responses u sid? q env).2).getLast? =
        some (.runPipeline u sid)) := by
  obtain ⟨s, store', fx, hres, hmem, hmw, htc, hout⟩ := stream_spec u sid? q env
  rw [hout, h]
  have hchunks : ∀ l ∈ env.events.filterMap
      (fun ev => (emitChunk s.id ev).map Line.chunk), l.isErr = false :=
    fun l hl => mem_chunkPart_not_err s.id env.events l hl
  refine ⟨⟨_, rfl, hchunks⟩, ?_, ?_, ⟨s.id, ?_⟩⟩
  · rw [List.filter_append]
    have h1 : List.filter Line.isErr
        (env.events.filterMap (fun ev => (emitChunk s.id ev).map Line.chunk)) = [] :=
      List.filter_eq_nil_iff.mpr (fun l hl => by simp [hchunks l hl])
    rw [h1]
    rfl
  · simp [memWrites, List.filterMap_append] at hmw ⊢
    exact hmw
  · exact List.getLast?_concat fx

/-- C10 witness: a stream raising after one chunk was already emitted —
one error line, no memory write, trace ending at the run. -/
theorem stream_failure_skips_memory_witness :
    (∃ pre, (stream_agent_responses "u" none "q"
        ⟨[], "fresh", [⟨"CodeWriterAgent", some ⟨[⟨some "draft"⟩]⟩, false⟩],
         some "backend gone", .ok ()⟩).1 = pre ++ [.err "backend gone"] ∧
        ∀ l ∈ pre, l.isErr = false) ∧
    ((stream_agent_responses "u" none "q"
        ⟨[], "fresh", [⟨"CodeWriterAgent", some ⟨[⟨some "draft"⟩]⟩, false⟩],
         some "backend gone", .ok ()⟩).1.filter Line.isErr).length = 1 ∧
    memWrites (stream_agent_responses "u" none "q"
        ⟨[], "fresh", [⟨"CodeWriterAgent", some ⟨[⟨some "draft"⟩]⟩, false⟩],
         some "backend gone", .ok ()⟩).2 = [] ∧
    (∃ sid, ((stream_agent_responses "u" none "q"
        ⟨[], "fresh", [⟨"CodeWriterAgent", some ⟨[⟨some "draft"⟩]⟩, false⟩],
         some "backend gone", .ok ()⟩).2).getLast? =
        some (.runPipeline "u" sid)) :=
  stream_failure_skips_memory "u" none "q"
    ⟨[], "fresh", [⟨"CodeWriterAgent", some ⟨[⟨some "draft"⟩]⟩, false⟩],
     some "backend gone", .ok ()⟩ "backend gone" rfl

/-! ## Effect-trace lemmas and the frame claim -/

theorem memWrites_append (a b : List Effect) :
    memWrites (a ++ b) = memWrites a ++ memWrites b := by
  simp [memWrites, List.filterMap_append]

theorem touchedSessions_append (a b : List Effect) :
    touchedSessions (a ++ b) = touchedSessions a ++ touchedSessions b := by
  simp [touchedSessions, List.filterMap_append]

/-- C3: every successful `/ask` or `/ask_stream` call (pipeline run and
memory write both completed without exception) creates or mutates
exactly one session, and performs exactly one memory-service write — of
that same session — as the last service effect, i.e. after the event
stream (or synchronous run) completed. -/
theorem successful_call_effects (req : QueryRequest) (env : AskEnv)
    (u : String) (sid? : Option String) (q : String) (senv : StreamEnv) :
    ((∃ evs, env.runResult = .ok evs) → env.memResult = .ok () →
      ∃ sid, memWrites (ask_agent req env).2 = [sid] ∧
        touchedSessions (ask_agent req env).2 ≠ [] ∧
        (∀ x ∈ touchedSessions (ask_agent req env).2, x = sid) ∧
        (ask_agent req env).2.getLast? = some (.addMemory sid)) ∧
    (senv.streamFail = none → senv.memResult = .ok () →
      ∃ sid, memWrites (stream_agent_responses u sid? q senv).2 = [sid] ∧
        touchedSessions (stream_agent_responses u sid? q senv).2 ≠ [] ∧
        (∀ x ∈ touchedSessions (stream_agent_responses u sid? q senv).2, x = sid) ∧
        (stream_agent_responses u sid? q senv).2.getLast? =
          some (.addMemory sid)) := by
  constructor
  · rintro ⟨evs, hrun⟩ hmemr
    obtain ⟨s, store', fx, hres, hmem, hmw, htc⟩ :=
      get_or_create_session_ok env.store req.user_id req.session_id env.freshId
    have htr : (ask_agent req env).2 =
        fx ++ [.runPipeline req.user_id s.id,
               .getSession (APP_NAME, req.user_id, s.id), .addMemory s.id] := by
      simp only [ask_agent, hres, hrun, get_session, if_pos hmem, hmemr]
      split <;> simp
    rw [htr]
    refine ⟨s.id, ?_, ?_, ?_, ?_⟩
    · rw [memWrites_append, hmw]
      simp [memWrites]
    · rw [touchedSessions_append]
      simp [touchedSessions]
    · rw [touchedSessions_append]
      intro x hx
      rcases List.mem_append.mp hx with hx | hx
      · exact htc x hx
      · simpa [touchedSessions] using hx
    · simp [List.getLast?_append]
  · intro hsf hmemr
    obtain ⟨s, store', fx, hres, hmem, hmw, htc, hout⟩ := stream_spec u sid? q senv
    have htr : (stream_agent_responses u sid? q senv).2 =
        fx ++ [.runPipeline u s.id,
               .getSession (APP_NAME, u, s.id), .addMemory s.id] := by
      rw [hout, hsf, hmemr]
    rw [htr]
    refine ⟨s.id, ?_, ?_, ?_, ?_⟩
    · rw [memWrites_append, hmw]
      simp [memWrites]
    · rw [touchedSessions_append]
      simp [touchedSessions]
    · rw [touchedSessions_append]
      intro x hx
      rcases List.mem_append.mp hx with hx | hx
      · exact htc x hx
      · simpa [touchedSessions] using hx
    · simp [List.getLast?_append]

/-- C3 witness: a successful synchronous turn and a successful streamed
turn, each with one memory write of the single touched session. -/
theorem successful_call_effects_witness :
    ∃ sid, memWrites (ask_agent ⟨"q", "u", none⟩ ⟨[], "f1", .ok [], .ok ()⟩).2 = [sid] ∧
      touchedSessions (ask_agent ⟨"q", "u", none⟩ ⟨[], "f1", .ok [], .ok ()⟩).2 ≠ [] ∧
      (∀ x ∈ touchedSessions (ask_agent ⟨"q", "u", none⟩ ⟨[], "f1", .ok [], .ok ()⟩).2,
        x = sid) ∧
      (ask_agent ⟨"q", "u", none⟩ ⟨[], "f1", .ok [], .ok ()⟩).2.getLast? =
        some (.addMemory sid) :=
  (successful_call_effects ⟨"q", "u", none⟩ ⟨[], "f1", .ok [], .ok ()⟩
    "u" none "q" ⟨[], "f2", [], none, .ok ()⟩).1 ⟨[], rfl⟩ rfl

/-! ## Pipeline ordering -/

/-- The ordered sub-agent names of the pipeline definition. -/
def pipelineNames : List String := code_pipeline_agent.sub_agents.map AgentDef.name

/-- The stage index of an author within the pipeline order. -/
def stageIdx (a : String) : Nat := pipelineNames.indexOf a

/-- Pipeline ordering of a turn's event stream, as the sequential
orchestrator produces it per the spec's external interface: stage
indices never regress, and an event followed by a later event of the
same author is not that author's final response. -/
def eventOrderOK (a b : Event) : Prop :=
  stageIdx a.author ≤ stageIdx b.author ∧ (a.author = b.author → a.is_final = false)

/-- The same ordering read off emitted chunks. -/
def chunkOrderOK (a b : StreamChunk) : Prop :=
  stageIdx a.agent ≤ stageIdx b.agent ∧ (a.agent = b.agent → a.is_final = false)

instance : DecidableRel eventOrderOK := fun a b => by
  unfold eventOrderOK; infer_instance

instance : DecidableRel chunkOrderOK := fun a b => by
  unfold chunkOrderOK; infer_instance

/-- The chunk payloads of a streamed turn are the per-event emissions
for the resolved session. -/
theorem stream_chunkLines (u : String) (sid? : Option String) (q : String)
    (env : StreamEnv) :
    ∃ s store' fx,
      get_or_create_session env.store u sid? env.freshId = (.ok s, store', fx) ∧
      chunkLines (stream_agent_responses u sid? q env).1 =
        env.events.filterMap (emitChunk s.id) := by
  obtain ⟨s, store', fx, hres, hmem, hmw, htc, hout⟩ := stream_spec u sid? q env
  refine ⟨s, store', fx, hres, ?_⟩
  rw [hout]
  cases env.streamFail with
  | some e => simp [chunkLines_append_err, chunkLines_of_chunks]
  | none =>
    cases env.memResult with
    | error e => simp [chunkLines_append_err, chunkLines_of_chunks]
    | ok uu => simp [chunkLines_of_chunks]

/-- C7: when the runner delivers the turn's events in pipeline order
(writer, then reviewer, then refactorer, with each agent's non-final
events before its final one), the emitted chunk lines carry their
`agent`/`is_final` values in that same order: no later stage's chunk
precedes an earlier stage's, and within one agent non-final chunks
precede the final chunk. -/
theorem stream_chunks_in_pipeline_order (u : String) (sid? : Option String)
    (q : String) (env : StreamEnv)
    (h : env.events.Pairwise eventOrderOK) :
    (chunkLines (stream_agent_responses u sid? q env).1).Pairwise chunkOrderOK := by
  obtain ⟨s, store', fx, hres, hcl⟩ := stream_chunkLines u sid? q env
  rw [hcl]
  refine List.Pairwise.filterMap (emitChunk s.id) ?_ h
  intro a a' hR c hc c' hc'
  rw [Option.mem_def] at hc hc'
  obtain ⟨hag, hfin, -, -⟩ := emitChunk_some_fields s.id a c hc
  obtain ⟨hag', hfin', -, -⟩ := emitChunk_some_fields s.id a' c' hc'
  refine ⟨?_, ?_⟩
  · rw [hag, hag']
    exact hR.1
  · intro he
    rw [hfin, hR.2 (by rw [← hag, ← hag', he])]

/-- C7 witness: a three-stage turn streamed in pipeline order. -/
theorem stream_chunks_in_pipeline_order_witness :
    (chunkLines (stream_agent_responses "u" none "q"
        ⟨[], "fresh",
         [⟨"CodeWriterAgent", some ⟨[⟨some "w"⟩]⟩, true⟩,
          ⟨"CodeReviewerAgent", some ⟨[⟨some "r"⟩]⟩, true⟩,
          ⟨"CodeRefactorerAgent", some ⟨[⟨some "f"⟩]⟩, true⟩],
         none, .ok ()⟩).1).Pairwise chunkOrderOK :=
  stream_chunks_in_pipeline_order "u" none "q"
    ⟨[], "fresh",
     [⟨"CodeWriterAgent", some ⟨[⟨some "w"⟩]⟩, true⟩,
      ⟨"CodeReviewerAgent", some ⟨[⟨some "r"⟩]⟩, true⟩,
      ⟨"CodeRefactorerAgent", some ⟨[⟨some "f"⟩]⟩, true⟩],
     none, .ok ()⟩ (by decide)

end MultiAgent
